import Mathlib

/-!
Verification of the per-agent call-lock and completion-watcher logic of the
AI voice-agent repository. The backend model follows
`Backend/routes/omnidimProxy.js`; the client model follows
`waitForCallCompletion` in `AiVoiceHragent/src/components/MainFile.jsx`.

JavaScript values are embedded as follows: nullable fields become `Option`,
JS truthiness of strings and numbers is made explicit, `Map` becomes a
function map, timers become explicit entries in the server state, and each
asynchronous callback (the watcher's `setInterval` tick, an HTTP handler)
becomes a state-transition function whose network results are parameters.
-/

/-- JS truthiness of a string: the empty string is falsy. -/
def jsTruthyStr (s : String) : Bool := !s.data.isEmpty

/-- JS truthiness of a nullable string (`undefined`/`null` and `""` are falsy). -/
def strTruthy : Option String → Bool
  | some s => jsTruthyStr s
  | none => false

/-- JS truthiness of a nullable number (`undefined`/`null` and `0` are falsy). -/
def natTruthy : Option Nat → Bool
  | some n => n != 0
  | none => false

/-- `String(x || d)` for a nullable string `x` and default `d`. -/
def jsOrDefault (o : Option String) (d : String) : String :=
  match o with
  | some s => if jsTruthyStr s then s else d
  | none => d

/-- `a || b` on nullable strings, with JS truthiness. -/
def jsOrOpt (a b : Option String) : Option String :=
  if strTruthy a then a else b

/-- `String(x)` on a nullable string: `undefined` prints as "undefined". -/
def jsString (o : Option String) : String := o.getD "undefined"

/-- `String.prototype.toLowerCase` (ASCII range, as used by the status tokens). -/
def jsToLower (s : String) : String := ⟨s.data.map Char.toLower⟩

/-- `String.prototype.trim`: strip leading and trailing whitespace. -/
def jsTrim (s : String) : String :=
  ⟨((s.data.dropWhile Char.isWhitespace).reverse.dropWhile Char.isWhitespace).reverse⟩

/-- `s.split(' ')`: split a character list at every space, keeping empty pieces. -/
def splitChars : List Char → List (List Char)
  | [] => [[]]
  | c :: rest =>
    let r := splitChars rest
    if c = ' ' then [] :: r
    else
      match r with
      | [] => [[c]]
      | h :: t => (c :: h) :: t

/-- `s.split(' ')` on a string. -/
def jsSplitSpace (s : String) : List String := (splitChars s.data).map (fun cs => ⟨cs⟩)

/-- Case-insensitive substring test, used to embed the network-error regex. -/
def isSubstrAux (pat : List Char) : List Char → Bool
  | [] => pat.isEmpty
  | c :: rest => pat.isPrefixOf (c :: rest) || isSubstrAux pat rest

/-- Case-insensitive containment of `pat` in `s`. -/
def containsCI (s pat : String) : Bool :=
  isSubstrAux (jsToLower pat).data (jsToLower s).data

/-- `req.headers.authorization?.split(' ')[1]` followed by the `if (!token)` guard:
the bearer token, when one is present and non-empty. -/
def extractToken (authHeader : Option String) : Option String :=
  match authHeader with
  | none => none
  | some h =>
    match (jsSplitSpace h).get? 1 with
    | some t => if jsTruthyStr t then some t else none
    | none => none

/-! ## Backend data model (`Backend/routes/omnidimProxy.js`) -/

/-- The `FINAL_STATUSES` set (lines 14-17). -/
def FINAL_STATUSES : List String :=
  ["completed", "failed", "busy", "no-answer", "no_answer", "not_answered", "canceled",
   "cancelled", "hangup", "hang_up", "ended", "disconnected", "finished", "complete",
   "completed_successfully"]

/-- The `ONGOING_STATUSES` set (lines 20-22). -/
def ONGOING_STATUSES : List String :=
  ["in_progress", "in-progress", "ringing", "dialing", "connected", "live", "ongoing",
   "active", "answer", "answered", "talking"]

/-- A lock-table entry: `agent_id -> { currentCallId, startedAt, timer, interval }`.
In Node the timer fields hold `Timeout` objects (always truthy when present), so
they are embedded as optional timer identifiers. -/
structure Lock where
  currentCallId : Option String := none
  startedAt : Option Nat := none
  timer : Option Nat := none
  interval : Option Nat := none
deriving DecidableEq

/-- The in-memory `agentLocks` map. -/
def LockMap : Type := String → Option Lock

/-- `agentLocks.set(k, l)`. -/
def setLock (m : LockMap) (k : String) (l : Lock) : LockMap :=
  fun x => if x = k then some l else m x

/-- The action a `setTimeout` callback performs when it fires. -/
inductive TimeoutAction where
  | release (agentId : String) (reason : String)
deriving DecidableEq

/-- A pending `setTimeout`: identifier, delay in milliseconds, and callback action. -/
structure PendingTimeout where
  id : Nat
  delay : Nat
  action : TimeoutAction
deriving DecidableEq

/-- The process-local server state: the lock table, the pending `setTimeout`
timers, the live `setInterval` identifiers, a fresh-identifier counter, and a
chronological log of every `releaseAgentLock` call with its reason. -/
structure ServerState where
  agentLocks : LockMap
  pendingTimeouts : List PendingTimeout
  activeIntervals : List Nat
  nextTimerId : Nat
  releases : List (String × String)

/-- The server state at process start. -/
def emptyServerState : ServerState :=
  { agentLocks := fun _ => none, pendingTimeouts := [], activeIntervals := [],
    nextTimerId := 1, releases := [] }

/-- `if (lock) { if (lock.interval) clearInterval(...); if (lock.timer) clearTimeout(...) }`
from `releaseAgentLock` (lines 26-29). -/
def clearLockTimers (st : ServerState) (lock : Option Lock) : ServerState :=
  match lock with
  | some l =>
    { st with
      activeIntervals :=
        match l.interval with
        | some iid => st.activeIntervals.filter (fun x => x != iid)
        | none => st.activeIntervals,
      pendingTimeouts :=
        match l.timer with
        | some tid => st.pendingTimeouts.filter (fun t => t.id != tid)
        | none => st.pendingTimeouts }
  | none => st

/-- `releaseAgentLock(agentId, reason)` (lines 24-32): clear the entry's timers,
delete the entry, and log the release. -/
def releaseAgentLock (st : ServerState) (agentId : String) (reason : String) : ServerState :=
  let stc := clearLockTimers st (st.agentLocks agentId)
  { stc with
    agentLocks := fun k => if k = agentId then none else stc.agentLocks k,
    releases := stc.releases ++ [(agentId, reason)] }

/-- Firing a pending `setTimeout`: the timer leaves the pending set and its
callback runs. -/
def fireTimeout (st : ServerState) (t : PendingTimeout) : ServerState :=
  let st1 := { st with pendingTimeouts := st.pendingTimeouts.filter (fun x => x.id != t.id) }
  match t.action with
  | .release a r => releaseAgentLock st1 a r

/-- Result of the lock-acquisition gate at the top of the dispatch handler. -/
inductive AcquireResult where
  | granted
  | rejected (currentCallId : Option String)
deriving DecidableEq

/-- The dispatch handler's lock gate (lines 166-179): reject with the current
call identifier (`existing.currentCallId || undefined`) when an entry with a
truthy `currentCallId` or `startedAt` exists; otherwise write a reservation
entry `{ startedAt: Date.now(), currentCallId: null }`. -/
def tryAcquire (locks : LockMap) (agentKey : String) (now : Nat) : LockMap × AcquireResult :=
  match locks agentKey with
  | some existing =>
    if strTruthy existing.currentCallId || natTruthy existing.startedAt then
      (locks, .rejected (if strTruthy existing.currentCallId then existing.currentCallId else none))
    else
      (setLock locks agentKey { currentCallId := none, startedAt := some now }, .granted)
  | none =>
    (setLock locks agentKey { currentCallId := none, startedAt := some now }, .granted)

/-! ## Watcher model (`startCompletionWatcher`, lines 34-148) -/

/-- The fields of a call-log detail object that the watcher reads. -/
structure CallData where
  call_status : Option String := none
  status : Option String := none
  state : Option String := none
  recording_url : Option String := none
  ended_at : Option String := none
  end_time : Option String := none
  duration : Option Nat := none
deriving DecidableEq

/-- A detail response body: either flat, or with the call object nested under
`call_log_data` (line 56 reassigns `callData` in the nested case). -/
inductive RespData where
  | flat (d : CallData)
  | nested (d : CallData)
deriving DecidableEq

/-- `if (callData && callData.call_log_data) callData = callData.call_log_data`. -/
def unwrapResp : RespData → CallData
  | .flat d => d
  | .nested d => d

/-- `String((callData?.call_status ?? callData?.status ?? callData?.state) || '').toLowerCase().trim()`
(line 57). -/
def extractStatus (d : CallData) : String :=
  let raw := (d.call_status <|> d.status <|> d.state).getD ""
  jsTrim (jsToLower raw)

/-- `!!(callData?.recording_url || callData?.ended_at || callData?.end_time || callData?.duration)`
(line 58). -/
def hasEndArtifacts (d : CallData) : Bool :=
  strTruthy d.recording_url || strTruthy d.ended_at || strTruthy d.end_time || natTruthy d.duration

/-- An item of the call-logs list response. -/
structure ListItem where
  id : Option String := none
  call_log_id : Option String := none
  call_status : Option String := none
  status : Option String := none
  state : Option String := none
deriving DecidableEq

/-- `items.find(it => String(it?.id) === String(callLogId) || String(it?.call_log_id) === String(callLogId))`. -/
def findMatch (items : List ListItem) (callLogId : String) : Option ListItem :=
  items.find? (fun it => jsString it.id == callLogId || jsString it.call_log_id == callLogId)

/-- `String((match.call_status ?? match.status ?? match.state) || '').toLowerCase().trim()`. -/
def extractListStatus (m : ListItem) : String :=
  let raw := (m.call_status <|> m.status <|> m.state).getD ""
  jsTrim (jsToLower raw)

/-- Outcome of the list GET, as the watcher sees it: success carries the
extracted `call_log_data` array when the response held one (`none` models a
body that is not an array), and failure is a thrown error. -/
inductive ListOutcome where
  | ok (items : Option (List ListItem))
  | err (status : Option Nat) (msg : String)
deriving DecidableEq

/-- Outcome of the detail GET: a parsed body, or a thrown error carrying
`e.response?.status` and the `e.code || e.message` string. -/
inductive FetchOutcome where
  | ok (resp : RespData)
  | err (status : Option Nat) (code : String)
deriving DecidableEq

/-- Environment of one watcher tick: the current time and the results the
network would return for the detail fetch and the (possibly unused) list fetch. -/
structure TickInput where
  now : Nat
  detail : FetchOutcome
  list : ListOutcome

/-- The closure variables of one `startCompletionWatcher` invocation
(lines 37-44). -/
structure WatcherState where
  agentId : String
  callLogId : String
  startedAt : Nat
  lastStatus : Option String := none
  seenOngoing : Bool := false
  seenOngoingAt : Nat := 0
  lastListCheckAt : Nat := 0
  consecutiveErrors : Nat := 0
  lastSuccessAt : Nat
deriving DecidableEq

/-- The regex `/ECONN|ETIMEDOUT|ENET|EAI_AGAIN|Bad Gateway|Gateway/i` applied to
`String(code)` (line 114). -/
def isNetworkCode (code : String) : Bool :=
  containsCI code "ECONN" || containsCI code "ETIMEDOUT" || containsCI code "ENET" ||
  containsCI code "EAI_AGAIN" || containsCI code "Bad Gateway" || containsCI code "Gateway"

/-- `(e.response?.status >= 500 && e.response?.status < 600) || regex.test(String(code))`. -/
def is5xxError (status : Option Nat) (codeStr : String) : Bool :=
  (match status with
   | some n => decide (500 ≤ n) && decide (n < 600)
   | none => false) ||
  isNetworkCode (match status with | some n => toString n | none => codeStr)

/-- The list cross-check body shared by both of the watcher's list fetches:
release when the matching list item carries a Final status. -/
def listCheckRelease (st : ServerState) (agentId callLogId : String)
    (items : Option (List ListItem)) (reasonTag : String) : ServerState :=
  match items with
  | some arr =>
    match findMatch arr callLogId with
    | some m =>
      let listStatus := extractListStatus m
      if FINAL_STATUSES.contains listStatus then
        releaseAgentLock st agentId (reasonTag ++ listStatus)
      else st
    | none => st
  | none => st

/-- The final-status check at the end of the successful tick (lines 104-108). -/
def finalizeTick (st : ServerState) (agentId : String) (status : String) (hasEnd : Bool) :
    ServerState :=
  if FINAL_STATUSES.contains status || hasEnd then
    let finalStatusLabel :=
      if jsTruthyStr status then status
      else if hasEnd then "ended_by_artifacts" else "unknown"
    releaseAgentLock st agentId ("final_status:" ++ finalStatusLabel)
  else st

/-- The list cross-check of the successful tick (lines 76-98): attempted once
the call has been ongoing for 5 s and at most every 3 s; returns the updated
state and the new `lastListCheckAt`. -/
def successCrossCheck (st : ServerState) (w : WatcherState) (now : Nat)
    (seenOngoing : Bool) (seenOngoingAt : Nat) (list : ListOutcome) : ServerState × Nat :=
  if seenOngoing && seenOngoingAt != 0 && decide (5000 ≤ now - seenOngoingAt) then
    if decide (3000 ≤ now - w.lastListCheckAt) then
      (match list with
       | .ok items => listCheckRelease st w.agentId w.callLogId items "final_status_list:"
       | .err _ _ => st,
       now)
    else (st, w.lastListCheckAt)
  else (st, w.lastListCheckAt)

/-- A successful poll iteration of the watcher interval (lines 51-108). -/
def successTick (st : ServerState) (w : WatcherState) (now : Nat) (resp : RespData)
    (list : ListOutcome) : ServerState × WatcherState :=
  let callData := unwrapResp resp
  let status := extractStatus callData
  let hasEnd := hasEndArtifacts callData
  let seenOngoing :=
    if jsTruthyStr status && ONGOING_STATUSES.contains status then true else w.seenOngoing
  let seenOngoingAt :=
    if jsTruthyStr status && ONGOING_STATUSES.contains status then
      (if w.seenOngoingAt == 0 then now else w.seenOngoingAt)
    else w.seenOngoingAt
  let p := successCrossCheck st w now seenOngoing seenOngoingAt list
  (finalizeTick p.1 w.agentId status hasEnd,
   { w with
     lastStatus := some status,
     seenOngoing := seenOngoing,
     seenOngoingAt := seenOngoingAt,
     lastListCheckAt := p.2,
     consecutiveErrors := 0,
     lastSuccessAt := now })

/-- An erroring poll iteration of the watcher interval (lines 109-143).
The emergency-unlock block sits inside the `catch (e3)` of the list
cross-check, exactly as in the source (lines 132-141), so it is reachable only
when the cross-check was attempted and the list fetch itself failed. -/
def errorTick (st : ServerState) (w : WatcherState) (now : Nat) (status : Option Nat)
    (codeStr : String) (list : ListOutcome) : ServerState × WatcherState :=
  let consecutiveErrors := w.consecutiveErrors + 1
  let is5xx := is5xxError status codeStr
  if w.seenOngoing && decide (3000 ≤ now - w.lastListCheckAt) && is5xx then
    let st1 :=
      match list with
      | .ok items => listCheckRelease st w.agentId w.callLogId items "final_status_list_on_error:"
      | .err _ _ =>
        let errorSinceMs := now - w.lastSuccessAt
        if w.seenOngoing && is5xx &&
            (decide (10 ≤ consecutiveErrors) || decide (45000 ≤ errorSinceMs)) then
          releaseAgentLock st w.agentId "api_error_fallback"
        else st
    (st1, { w with consecutiveErrors := consecutiveErrors, lastListCheckAt := now })
  else
    (st, { w with consecutiveErrors := consecutiveErrors })

/-- One firing of the watcher's `setInterval` callback. -/
def watcherTick (st : ServerState) (w : WatcherState) (inp : TickInput) :
    ServerState × WatcherState :=
  match inp.detail with
  | .ok resp => successTick st w inp.now resp inp.list
  | .err status codeStr => errorTick st w inp.now status codeStr inp.list

/-- A sequence of watcher ticks. -/
def runTicks (st : ServerState) (w : WatcherState) (inps : List TickInput) :
    ServerState × WatcherState :=
  inps.foldl (fun p inp => watcherTick p.1 p.2 inp) (st, w)

/-- `startCompletionWatcher(agentId, callLogId, token)` (lines 34-48 and 146-147):
arm the 10-minute failsafe timeout, start the 1-second poll interval, and store
both handles on the lock entry together with the call identifier. -/
def startCompletionWatcher (st : ServerState) (agentId callLogId : String) (now : Nat) :
    ServerState × WatcherState :=
  let timerId := st.nextTimerId
  let intervalId := st.nextTimerId + 1
  let existing := (st.agentLocks agentId).getD {}
  let lock : Lock :=
    { existing with
      currentCallId := some callLogId, startedAt := some now,
      timer := some timerId, interval := some intervalId }
  ({ st with
     pendingTimeouts :=
       st.pendingTimeouts ++ [⟨timerId, 600000, .release agentId "timeout"⟩],
     activeIntervals := st.activeIntervals ++ [intervalId],
     nextTimerId := st.nextTimerId + 2,
     agentLocks := setLock st.agentLocks agentId lock },
   { agentId := agentId, callLogId := callLogId, startedAt := now, lastSuccessAt := now })

/-! ## HTTP handlers (`Backend/routes/omnidimProxy.js`) -/

/-- An HTTP response, with only the body fields the routes actually set. -/
structure ApiResponse where
  status : Nat
  ok : Option Bool := none
  agent_id : Option String := none
  current_call_id : Option String := none
  error : Option String := none
deriving DecidableEq

/-- The identifier fields the dispatch handler probes on the provider response
(line 202). -/
structure DispatchRespData where
  call_log_id : Option String := none
  id : Option String := none
  call_id : Option String := none
deriving DecidableEq

/-- Outcome of the `axios.post` to the provider's dispatch endpoint: a parsed
body, or a thrown error carrying `error.response?.status` and a message. -/
inductive DispatchOutcome where
  | ok (data : DispatchRespData)
  | err (status : Option Nat) (msg : String)
deriving DecidableEq

/-- The `POST /calls/dispatch` handler (lines 156-221): token gate, lock gate,
provider call, then either a completion watcher (identifier known), a 3-second
auto-release timer (no identifier), or - when the provider call throws - an
error response that leaves the state as the catch block does. -/
def dispatchHandler (st : ServerState) (authHeader : Option String) (agent_id : Option String)
    (outcome : DispatchOutcome) (now : Nat) : ServerState × ApiResponse :=
  match extractToken authHeader with
  | none => (st, { status := 401, error := some "No authorization token provided" })
  | some _ =>
    let agentKey := jsOrDefault agent_id "default"
    match tryAcquire st.agentLocks agentKey now with
    | (_, .rejected cc) =>
      (st, { status := 409, error := some "CALL_IN_PROGRESS", agent_id := some agentKey,
             current_call_id := cc })
    | (locks1, .granted) =>
      let st1 := { st with agentLocks := locks1 }
      match outcome with
      | .err s m => (st1, { status := s.getD 500, error := some m })
      | .ok data =>
        match jsOrOpt (jsOrOpt data.call_log_id data.id) data.call_id with
        | some callLogId =>
          ((startCompletionWatcher st1 agentKey callLogId now).1, { status := 200 })
        | none =>
          let timerId := st1.nextTimerId
          let existingLock := (st1.agentLocks agentKey).getD {}
          let st2 :=
            { st1 with
              agentLocks :=
                setLock st1.agentLocks agentKey { existingLock with timer := some timerId },
              pendingTimeouts :=
                st1.pendingTimeouts ++
                  [⟨timerId, 3000, .release agentKey "no_id_auto_release"⟩],
              nextTimerId := st1.nextTimerId + 1 }
          (st2, { status := 200 })

/-- The `POST /agent/release` handler (lines 371-376): no token gate; release
the lock keyed `String(agent_id || 'default')` and answer 200. -/
def agentReleaseHandler (st : ServerState) (_authHeader : Option String)
    (body_agent_id : Option String) : ServerState × ApiResponse :=
  let agentKey := jsOrDefault body_agent_id "default"
  (releaseAgentLock st agentKey "frontend_release",
   { status := 200, ok := some true, agent_id := some agentKey })

/-- Outcome of a proxied provider call made by the pass-through routes. -/
inductive ProxyOutcome where
  | ok
  | err (status : Option Nat) (msg : String)
deriving DecidableEq

/-- The `POST /calls/bulk_call/create` handler (lines 224-269): token gate,
then forward the provider result. -/
def bulkCreateHandler (authHeader : Option String) (outcome : ProxyOutcome) : ApiResponse :=
  match extractToken authHeader with
  | none => { status := 401, error := some "No authorization token provided" }
  | some _ =>
    match outcome with
    | .ok => { status := 200 }
    | .err s m => { status := s.getD 500, error := some m }

/-- The `GET /call/logs` handler (lines 313-367): token gate, then forward the
(possibly unwrapped) provider result. -/
def callLogsHandler (authHeader : Option String) (outcome : ProxyOutcome) : ApiResponse :=
  match extractToken authHeader with
  | none => { status := 401, error := some "No authorization token provided" }
  | some _ =>
    match outcome with
    | .ok => { status := 200 }
    | .err s m => { status := s.getD 500, error := some m }

/-- The `GET /call/log/:callLogId` handler (lines 380-422): token gate, then
forward the (possibly unwrapped) provider result. -/
def callLogDetailHandler (authHeader : Option String) (outcome : ProxyOutcome) : ApiResponse :=
  match extractToken authHeader with
  | none => { status := 401, error := some "No authorization token provided" }
  | some _ =>
    match outcome with
    | .ok => { status := 200 }
    | .err s m => { status := s.getD 500, error := some m }

/-! ## The status classifier implicit in the watcher's decision logic -/

/-- Classification of one polled status (with the end-artifact flag) as the
watcher's decision logic treats it. -/
inductive StatusClass where
  | Final
  | Ongoing
  | Unknown
deriving DecidableEq

/-- The normalisation both sides apply before set membership: lower-case, trim. -/
def normalizeStatus (raw : String) : String := jsTrim (jsToLower raw)

/-- The classifier realised by lines 57-108 of the watcher: a Final-set token or
end artifacts mean Final (lines 104-108), a truthy Ongoing-set token means
Ongoing (line 62), anything else is unknown to the watcher. -/
def classifyStatus (raw : String) (artifactsPresent : Bool) : StatusClass :=
  let status := normalizeStatus raw
  if FINAL_STATUSES.contains status || artifactsPresent then .Final
  else if jsTruthyStr status && ONGOING_STATUSES.contains status then .Ongoing
  else .Unknown

/-! ## Client model (`waitForCallCompletion`, MainFile.jsx lines 560-716) -/

namespace Frontend

/-- The call-detail fields the client polling loop reads (lines 605, 627). -/
structure CallData where
  call_status : Option String := none
  status : Option String := none
  state : Option String := none
  recording_url : Option String := none
  recordingUrl : Option String := none
  artifactRecordingUrl : Option String := none
  ended_at : Option String := none
  end_time : Option String := none
  duration : Option Nat := none
deriving DecidableEq

/-- The client's `FINAL_STATUSES` set (lines 575-578), in source order. -/
def FINAL_STATUSES : List String :=
  ["completed", "failed", "busy", "no-answer", "no_answer", "ended", "hangup", "hang_up",
   "canceled", "cancelled", "not_answered", "disconnected", "finished", "complete",
   "completed_successfully"]

/-- The client's `ONGOING_STATUSES` set (lines 579-581). -/
def ONGOING_STATUSES : List String :=
  ["in_progress", "in-progress", "ringing", "dialing", "connected", "live", "ongoing",
   "active", "answer", "answered", "talking"]

/-- `String((callData.call_status ?? callData.status ?? callData.state) || '').toLowerCase().trim()`
(lines 605-606). -/
def extractStatus (d : CallData) : String :=
  let raw := (d.call_status <|> d.status <|> d.state).getD ""
  jsTrim (jsToLower raw)

/-- `!!(callData.recording_url || callData.recordingUrl || callData.artifact?.recordingUrl
|| callData.ended_at || callData.end_time || callData.duration)` (line 627). -/
def hasEndArtifacts (d : CallData) : Bool :=
  strTruthy d.recording_url || strTruthy d.recordingUrl || strTruthy d.artifactRecordingUrl ||
  strTruthy d.ended_at || strTruthy d.end_time || natTruthy d.duration

/-- An item of the list response the client cross-checks (lines 665-668). -/
structure ListItem where
  id : Option String := none
  call_log_id : Option String := none
  call_status : Option String := none
  status : Option String := none
  state : Option String := none
  callStatus : Option String := none
  final_status : Option String := none
deriving DecidableEq

/-- `String((match.call_status ?? match.status ?? match.state ?? match.callStatus ??
match.final_status) || '').toLowerCase().trim()` (lines 667-668). -/
def extractListStatus (m : ListItem) : String :=
  let raw := (m.call_status <|> m.status <|> m.state <|> m.callStatus <|> m.final_status).getD ""
  jsTrim (jsToLower raw)

/-- `items.find(it => String(it?.id) === String(callLogId) || String(it?.call_log_id) === String(callLogId))`
(line 665). -/
def findMatch (items : List ListItem) (callLogId : String) : Option ListItem :=
  items.find? (fun it => jsString it.id == callLogId || jsString it.call_log_id == callLogId)

/-- The loop variables of one `waitForCallCompletion` invocation (lines 564-573). -/
structure ClientState where
  seenOngoing : Bool := false
  consecutiveNonOngoing : Nat := 0
  seenOngoingAt : Option Nat := none
  lastListCheckAt : Nat := 0
  errorStreak : Nat := 0
  lastSuccessAt : Nat
deriving DecidableEq

/-- What one poll's detail fetch produced: a parsed body on `resp.ok`, a non-ok
HTTP status, or a thrown error. -/
inductive ClientResp where
  | ok (callData : CallData)
  | httpErr (status : Nat)
  | exn (msg : String)
deriving DecidableEq

/-- Outcome of the client's list cross-check fetch: `ok` carries the extracted
items array (lines 662-664), `notOk` is a non-ok response, `exn` a thrown error. -/
inductive ClientListOutcome where
  | ok (items : List ListItem)
  | notOk (status : Nat)
  | exn (msg : String)
deriving DecidableEq

/-- Result of one poll iteration: the loop either returns a call object
("finished") or continues with updated loop variables. -/
inductive StepResult where
  | finished (d : CallData)
  | next (s : ClientState)
deriving DecidableEq

/-- Whether a step decided the call is finished. -/
def StepResult.isFinished : StepResult → Bool
  | .finished _ => true
  | .next _ => false

/-- The non-ongoing streak confirmation (lines 633-651): the updated state and
whether the streak reached two. -/
def clientStreakCheck (s : ClientState) (status : String) : ClientState × Bool :=
  if jsTruthyStr status && !ONGOING_STATUSES.contains status then
    ({ s with consecutiveNonOngoing := s.consecutiveNonOngoing + 1 },
     decide (2 ≤ s.consecutiveNonOngoing + 1))
  else if !jsTruthyStr status && s.seenOngoing then
    ({ s with consecutiveNonOngoing := s.consecutiveNonOngoing + 1 },
     decide (2 ≤ s.consecutiveNonOngoing + 1))
  else (s, false)

/-- The client's throttled list cross-check (lines 653-687). -/
def clientListCheck (s : ClientState) (callLogId : String) (now : Nat)
    (callData : CallData) (list : ClientListOutcome) : StepResult :=
  if s.seenOngoing && natTruthy s.seenOngoingAt &&
      decide (5000 ≤ now - s.seenOngoingAt.getD 0) then
    if decide (3000 ≤ now - s.lastListCheckAt) then
      let s := { s with lastListCheckAt := now }
      match list with
      | .ok items =>
        match findMatch items callLogId with
        | some m =>
          let listStatus := extractListStatus m
          if FINAL_STATUSES.contains listStatus then
            .finished { callData with call_status := some listStatus }
          else if jsTruthyStr listStatus && !ONGOING_STATUSES.contains listStatus then
            let s := { s with consecutiveNonOngoing := s.consecutiveNonOngoing + 1 }
            if decide (2 ≤ s.consecutiveNonOngoing) then
              .finished { callData with call_status := some listStatus }
            else .next s
          else .next s
        | none => .next s
      | .notOk _ => .next s
      | .exn _ => .next s
    else .next s
  else .next s

/-- One iteration of the client polling loop body (lines 589-707). -/
def clientPollStep (s : ClientState) (callLogId : String) (now : Nat) (resp : ClientResp)
    (list : ClientListOutcome) : StepResult :=
  match resp with
  | .ok callData =>
    let s := { s with errorStreak := 0, lastSuccessAt := now }
    let status := extractStatus callData
    let s :=
      if ONGOING_STATUSES.contains status then
        { s with
          seenOngoingAt := if !s.seenOngoing then some now else s.seenOngoingAt,
          seenOngoing := true,
          consecutiveNonOngoing := 0 }
      else s
    if FINAL_STATUSES.contains status then .finished callData
    else if hasEndArtifacts callData then .finished callData
    else
      let p := clientStreakCheck s status
      if p.2 then .finished callData
      else clientListCheck p.1 callLogId now callData list
  | .httpErr _ =>
    let streak := s.errorStreak + 1
    let sinceMs := now - s.lastSuccessAt
    if s.seenOngoing && (decide (10 ≤ streak) || decide (45000 ≤ sinceMs)) then
      .finished { call_status := some "ended_by_error_fallback" }
    else .next { s with errorStreak := streak }
  | .exn _ =>
    let streak := s.errorStreak + 1
    let sinceMs := now - s.lastSuccessAt
    if s.seenOngoing && (decide (10 ≤ streak) || decide (45000 ≤ sinceMs)) then
      .finished { call_status := some "ended_by_error_fallback" }
    else .next { s with errorStreak := streak }

/-- Environment of one client poll: the current time and both fetch results. -/
structure PollInput where
  now : Nat
  resp : ClientResp
  list : ClientListOutcome

/-- Run the polling loop over a finite schedule of poll environments; `none`
means the loop was still polling when the schedule ran out. -/
def runClientPolls (s : ClientState) (callLogId : String) : List PollInput → Option CallData
  | [] => none
  | i :: rest =>
    match clientPollStep s callLogId i.now i.resp i.list with
    | .finished d => some d
    | .next s1 => runClientPolls s1 callLogId rest

end Frontend

/-! ## Helper lemmas -/

theorem clearLockTimers_agentLocks (st : ServerState) (l : Option Lock) :
    (clearLockTimers st l).agentLocks = st.agentLocks := by
  cases l <;> rfl

theorem releaseAgentLock_lookup_self (st : ServerState) (a r : String) :
    (releaseAgentLock st a r).agentLocks a = none := by
  simp [releaseAgentLock]

theorem releaseAgentLock_lookup_other (st : ServerState) (a r k : String) (h : k ≠ a) :
    (releaseAgentLock st a r).agentLocks k = st.agentLocks k := by
  simp [releaseAgentLock, clearLockTimers_agentLocks, h]

theorem finalizeTick_lookup_self (st : ServerState) (a status : String) (hasEnd : Bool)
    (h : (FINAL_STATUSES.contains status || hasEnd) = true) :
    (finalizeTick st a status hasEnd).agentLocks a = none := by
  unfold finalizeTick
  rw [if_pos h]
  exact releaseAgentLock_lookup_self _ _ _

theorem successTick_lookup_self (st : ServerState) (w : WatcherState) (now : Nat)
    (resp : RespData) (list : ListOutcome)
    (h : (FINAL_STATUSES.contains (extractStatus (unwrapResp resp)) ||
          hasEndArtifacts (unwrapResp resp)) = true) :
    (successTick st w now resp list).1.agentLocks w.agentId = none := by
  unfold successTick
  exact finalizeTick_lookup_self _ _ _ _ h

theorem successCrossCheck_fst_ok_none (st : ServerState) (w : WatcherState) (now : Nat)
    (so : Bool) (soat : Nat) :
    (successCrossCheck st w now so soat (.ok none)).1 = st := by
  unfold successCrossCheck
  split
  · split
    · rfl
    · rfl
  · rfl

theorem finalizeTick_noop (st : ServerState) (a status : String) (hasEnd : Bool)
    (hF : FINAL_STATUSES.contains status = false) (hE : hasEnd = false) :
    finalizeTick st a status hasEnd = st := by
  have hmf : status ∉ FINAL_STATUSES := fun hm => by
    have hc : FINAL_STATUSES.contains status = true := List.elem_iff.mpr hm
    rw [hc] at hF
    cases hF
  simp [finalizeTick, hmf, hE]

theorem contains_ext {l1 l2 : List String}
    (h12 : ∀ x ∈ l1, l2.contains x = true)
    (h21 : ∀ x ∈ l2, l1.contains x = true) (s : String) :
    l1.contains s = l2.contains s := by
  cases h1 : l1.contains s <;> cases h2 : l2.contains s
  · rfl
  · have hm : s ∈ l2 := List.elem_iff.mp h2
    rw [h21 s hm] at h1
    exact h1.symm
  · have hm : s ∈ l1 := List.elem_iff.mp h1
    rw [h12 s hm] at h2
    exact h2
  · rfl

/-! ## Scenario fixtures -/

/-- A tick whose detail fetch succeeds with the given bare status and whose
list fetch (if attempted) returns a non-array body. -/
def okStatusTick (now : Nat) (s : String) : TickInput :=
  { now := now, detail := .ok (.flat { call_status := some s }), list := .ok none }

/-- A server state holding the lock for agent `A1` on call `c1`. -/
def lockedState : ServerState :=
  { emptyServerState with
    agentLocks := setLock emptyServerState.agentLocks "A1"
      { currentCallId := some "c1", startedAt := some 500 } }

/-- A watcher for agent `A1`, call `c1`, that has seen the call ongoing and has
accumulated nine consecutive poll errors since its last success at t=1000. -/
def errStreakWatcher : WatcherState :=
  { agentId := "A1", callLogId := "c1", startedAt := 0, seenOngoing := true,
    seenOngoingAt := 1000, consecutiveErrors := 9, lastSuccessAt := 1000 }

/-! ## Claims -/

/-- Claim C9: `releaseAgentLock` is idempotent. For every server state and
agent, releasing once leaves no lock entry for that agent; releasing twice in a
row (with any reasons) also leaves none and changes no other entry relative to
the single release; and since the function is total, no call raises. The same
statement instantiated at a state with no entry for the agent covers the
release-of-nothing case. -/
theorem release_idempotent :
    ∀ (st : ServerState) (a r r1 : String),
      (releaseAgentLock st a r).agentLocks a = none
    ∧ (releaseAgentLock (releaseAgentLock st a r) a r1).agentLocks a = none
    ∧ (∀ k, (releaseAgentLock (releaseAgentLock st a r) a r1).agentLocks k
            = (releaseAgentLock st a r).agentLocks k) := by
  intro st a r r1
  refine ⟨releaseAgentLock_lookup_self st a r, releaseAgentLock_lookup_self _ a r1, ?_⟩
  intro k
  by_cases hk : k = a
  · rw [hk, releaseAgentLock_lookup_self, releaseAgentLock_lookup_self]
  · rw [releaseAgentLock_lookup_other _ _ _ _ hk]

theorem tryAcquire_granted_lookup (m : LockMap) (k : String) (n : Nat)
    (hg : (tryAcquire m k n).2 = .granted) :
    (tryAcquire m k n).1 k = some { currentCallId := none, startedAt := some n } := by
  unfold tryAcquire at hg ⊢
  cases hm : m k with
  | none => simp [setLock]
  | some l =>
    rw [hm] at hg
    dsimp only at hg ⊢
    by_cases hc : (strTruthy l.currentCallId || natTruthy l.startedAt) = true
    · rw [if_pos hc] at hg
      exact absurd hg (by simp)
    · rw [if_neg hc] at hg ⊢
      simp [setLock]

/-- Claim C3: the dispatch lock gate is exclusive. An acquire on a key with no
entry is granted; an immediately following acquire on the same key with no
intervening release is rejected, and - because the first acquire attached no
call identifier yet - the rejection carries no `currentCallId`; and any entry
holding a (truthy) reservation timestamp but no call identifier likewise
produces a rejection with `currentCallId` unset. -/
theorem tryAcquire_exclusive :
    (∀ (m : LockMap) (k : String) (n : Nat), m k = none →
        (tryAcquire m k n).2 = .granted)
  ∧ (∀ (m : LockMap) (k : String) (n n1 : Nat), n ≠ 0 →
        (tryAcquire m k n).2 = .granted →
        (tryAcquire (tryAcquire m k n).1 k n1).2 = .rejected none)
  ∧ (∀ (m : LockMap) (k : String) (n : Nat) (l : Lock), m k = some l →
        natTruthy l.startedAt = true → strTruthy l.currentCallId = false →
        (tryAcquire m k n).2 = .rejected none) := by
  refine ⟨?_, ?_, ?_⟩
  · intro m k n hm
    unfold tryAcquire
    rw [hm]
  · intro m k n n1 hn hg
    have h1 := tryAcquire_granted_lookup m k n hg
    obtain ⟨m1, hm1⟩ : ∃ m1, (tryAcquire m k n).1 = m1 := ⟨_, rfl⟩
    rw [hm1] at h1 ⊢
    unfold tryAcquire
    rw [h1]
    dsimp only
    simp [strTruthy, natTruthy, hn]
  · intro m k n l hm hst hcc
    unfold tryAcquire
    rw [hm]
    dsimp only
    rw [hcc, hst]
    simp [hcc]

/-- Witness for C3 at a concrete burst: on an empty table, the first acquire
for agent `A1` is granted and the second is rejected with `currentCallId`
unset. -/
theorem tryAcquire_exclusive_witness :
    (tryAcquire emptyServerState.agentLocks "A1" 5).2 = .granted
  ∧ (tryAcquire (tryAcquire emptyServerState.agentLocks "A1" 5).1 "A1" 6).2
      = .rejected none :=
  ⟨tryAcquire_exclusive.1 emptyServerState.agentLocks "A1" 5 rfl,
   tryAcquire_exclusive.2.1 emptyServerState.agentLocks "A1" 5 6 (by decide)
     (tryAcquire_exclusive.1 emptyServerState.agentLocks "A1" 5 rfl)⟩

theorem ongoing_token_facts (s : String) (h : ONGOING_STATUSES.contains s = true) :
    FINAL_STATUSES.contains s = false ∧ jsTruthyStr s = true := by
  have hm : s ∈ ONGOING_STATUSES := List.elem_iff.mp h
  fin_cases hm <;> exact ⟨by decide, by decide⟩

/-- Claim C6: the status classification is pure and total. Every input whose
normalised form (lower-cased, trimmed) is a Final-set token classifies Final
whatever the artifact flag; every input whose normalised form is an Ongoing-set
token classifies Final when artifacts are present and Ongoing otherwise; and
every input in neither set - the empty string included - classifies Unknown
when no artifacts are present. Totality holds by construction: `classifyStatus`
is a total function on all strings. -/
theorem classify_status_total :
    (∀ (s : String) (a : Bool), FINAL_STATUSES.contains (normalizeStatus s) = true →
        classifyStatus s a = .Final)
  ∧ (∀ (s : String), ONGOING_STATUSES.contains (normalizeStatus s) = true →
        classifyStatus s true = .Final ∧ classifyStatus s false = .Ongoing)
  ∧ (∀ (s : String), FINAL_STATUSES.contains (normalizeStatus s) = false →
        ONGOING_STATUSES.contains (normalizeStatus s) = false →
        classifyStatus s false = .Unknown)
  ∧ classifyStatus "" false = .Unknown := by
  refine ⟨?_, ?_, ?_, by decide⟩
  · intro s a h
    have hm : normalizeStatus s ∈ FINAL_STATUSES := List.elem_iff.mp h
    simp [classifyStatus, hm]
  · intro s h
    obtain ⟨hf, ht⟩ := ongoing_token_facts _ h
    have hmo : normalizeStatus s ∈ ONGOING_STATUSES := List.elem_iff.mp h
    have hmf : normalizeStatus s ∉ FINAL_STATUSES := fun hm => by
      have hc : FINAL_STATUSES.contains (normalizeStatus s) = true := List.elem_iff.mpr hm
      rw [hc] at hf
      cases hf
    constructor
    · simp [classifyStatus, hmf, hmo, ht]
    · simp [classifyStatus, hmf, hmo, ht]
  · intro s h1 h2
    have hmf : normalizeStatus s ∉ FINAL_STATUSES := fun hm => by
      have hc : FINAL_STATUSES.contains (normalizeStatus s) = true := List.elem_iff.mpr hm
      rw [hc] at h1
      cases h1
    have hmo : normalizeStatus s ∉ ONGOING_STATUSES := fun hm => by
      have hc : ONGOING_STATUSES.contains (normalizeStatus s) = true := List.elem_iff.mpr hm
      rw [hc] at h2
      cases h2
    simp [classifyStatus, hmf, hmo]

/-- Witness for C6 at concrete inputs: a cased, padded Final token; an Ongoing
token with and without artifacts; and a token in neither set. -/
theorem classify_status_total_witness :
    classifyStatus " ComPleTed " false = .Final
  ∧ classifyStatus "ringing" true = .Final
  ∧ classifyStatus "ringing" false = .Ongoing
  ∧ classifyStatus "queued" false = .Unknown :=
  ⟨classify_status_total.1 " ComPleTed " false (by decide),
   (classify_status_total.2.1 "ringing" (by decide)).1,
   (classify_status_total.2.1 "ringing" (by decide)).2,
   classify_status_total.2.2.1 "queued" (by decide) (by decide)⟩

/-- Claim C1 (failing input): with `hasBeenOngoing` true and the tenth
consecutive 5xx detail error 59 seconds after the last success, the code
releases nothing when the list cross-check succeeds without reporting a final
status (first two conjuncts), and nothing when the cross-check is throttled
(third conjunct); the `api_error_fallback` release is reachable only on the
path where the cross-check was attempted and its fetch itself threw (last
conjunct), because the emergency-unlock block sits inside that `catch`. -/
theorem error_fallback_needs_failed_list_fetch :
    (((watcherTick lockedState errStreakWatcher
        { now := 60000, detail := .err (some 503) "", list := .ok (some []) }).1.agentLocks
        "A1").isSome = true)
  ∧ ((watcherTick lockedState errStreakWatcher
        { now := 60000, detail := .err (some 503) "", list := .ok (some []) }).1.releases = [])
  ∧ (((watcherTick lockedState { errStreakWatcher with lastListCheckAt := 58000 }
        { now := 60000, detail := .err (some 503) "", list := .err (some 503) "" }).1.agentLocks
        "A1").isSome = true)
  ∧ ((watcherTick lockedState errStreakWatcher
        { now := 60000, detail := .err (some 503) "", list := .err (some 503) "" }).1.releases
      = [("A1", "api_error_fallback")]) := by
  refine ⟨by decide, by decide, by decide, by decide⟩

/-- Claim C2 (failing input): a dispatch that passes the token and lock gates
and then fails at the provider call returns the error status, yet leaves the
reservation entry in the lock table with no watcher interval, no pending
timer, and no scheduled release of any kind. -/
theorem dispatch_error_leaves_lock_untriggered :
    ((dispatchHandler emptyServerState (some "Bearer tok") (some "A1")
        (.err none "ECONNREFUSED") 1000).2.status = 500)
  ∧ ((dispatchHandler emptyServerState (some "Bearer tok") (some "A1")
        (.err none "ECONNREFUSED") 1000).1.agentLocks "A1"
      = some { currentCallId := none, startedAt := some 1000 })
  ∧ ((dispatchHandler emptyServerState (some "Bearer tok") (some "A1")
        (.err none "ECONNREFUSED") 1000).1.pendingTimeouts = [])
  ∧ ((dispatchHandler emptyServerState (some "Bearer tok") (some "A1")
        (.err none "ECONNREFUSED") 1000).1.activeIntervals = [])
  ∧ ((dispatchHandler emptyServerState (some "Bearer tok") (some "A1")
        (.err none "ECONNREFUSED") 1000).1.releases = []) := by
  refine ⟨by decide, by decide, by decide, by decide, by decide⟩

/-- A server state in which agent `A1` has been re-acquired for a new call
`c2`, with its failsafe timer 7 and poll interval 8 registered. -/
def reacquiredState : ServerState :=
  { emptyServerState with
    agentLocks := setLock emptyServerState.agentLocks "A1"
      { currentCallId := some "c2", startedAt := some 5000, timer := some 7, interval := some 8 },
    pendingTimeouts := [⟨7, 600000, .release "A1" "timeout"⟩],
    activeIntervals := [8], nextTimerId := 9 }

/-- The watcher of an earlier, already-released call `c1` for the same agent. -/
def staleWatcher : WatcherState :=
  { agentId := "A1", callLogId := "c1", startedAt := 100, lastSuccessAt := 100 }

/-- Claim C4 (failing input): a tick of the earlier call's watcher that was
still in flight when its lock was released and the agent re-acquired for call
`c2` observes a final status for `c1` and, keyed only on the agent identifier
with no generation guard, removes the new lock entry, logs the release, and
cancels the new watcher's interval and failsafe timer. -/
theorem stale_tick_releases_later_lock :
    ((watcherTick reacquiredState staleWatcher (okStatusTick 6000 "completed")).1.agentLocks
        "A1" = none)
  ∧ ((watcherTick reacquiredState staleWatcher (okStatusTick 6000 "completed")).1.releases
      = [("A1", "final_status:completed")])
  ∧ ((watcherTick reacquiredState staleWatcher (okStatusTick 6000 "completed")).1.activeIntervals
      = [])
  ∧ ((watcherTick reacquiredState staleWatcher (okStatusTick 6000 "completed")).1.pendingTimeouts
      = []) := by
  refine ⟨by decide, by decide, by decide, by decide⟩

/-- The server and watcher state right after a dispatch for agent `A1` acquired
the lock (t=500) and `startCompletionWatcher` was started for call `c1`. -/
def watcherScenarioStart : ServerState × WatcherState :=
  let st0 :=
    { emptyServerState with
      agentLocks := (tryAcquire emptyServerState.agentLocks "A1" 500).1 }
  startCompletionWatcher st0 "A1" "c1" 500

/-- Claim C7: on the poll sequence ringing, ringing, connected, completed (one
status per one-second tick, no artifacts), the lock for `A1` is present right
after the watcher starts (before any poll, with no release logged), stays
present after each of the first three ticks, and is removed exactly at the
fourth with reason `final_status:completed`; and in general any single
successful poll whose extracted status is in the Final set removes the
watcher's lock entry within that same tick. -/
theorem watcher_release_timing :
    ((watcherScenarioStart.1.agentLocks "A1").isSome = true
      ∧ watcherScenarioStart.1.releases = [])
  ∧ (((runTicks watcherScenarioStart.1 watcherScenarioStart.2
        [okStatusTick 1000 "ringing"]).1.agentLocks "A1").isSome = true)
  ∧ (((runTicks watcherScenarioStart.1 watcherScenarioStart.2
        [okStatusTick 1000 "ringing", okStatusTick 2000 "ringing"]).1.agentLocks
        "A1").isSome = true)
  ∧ (((runTicks watcherScenarioStart.1 watcherScenarioStart.2
        [okStatusTick 1000 "ringing", okStatusTick 2000 "ringing",
         okStatusTick 3000 "connected"]).1.agentLocks "A1").isSome = true
      ∧ (runTicks watcherScenarioStart.1 watcherScenarioStart.2
          [okStatusTick 1000 "ringing", okStatusTick 2000 "ringing",
           okStatusTick 3000 "connected"]).1.releases = [])
  ∧ ((runTicks watcherScenarioStart.1 watcherScenarioStart.2
        [okStatusTick 1000 "ringing", okStatusTick 2000 "ringing",
         okStatusTick 3000 "connected", okStatusTick 4000 "completed"]).1.agentLocks
        "A1" = none
      ∧ (runTicks watcherScenarioStart.1 watcherScenarioStart.2
          [okStatusTick 1000 "ringing", okStatusTick 2000 "ringing",
           okStatusTick 3000 "connected", okStatusTick 4000 "completed"]).1.releases
        = [("A1", "final_status:completed")])
  ∧ (∀ (st : ServerState) (w : WatcherState) (now : Nat) (resp : RespData)
        (list : ListOutcome),
        FINAL_STATUSES.contains (extractStatus (unwrapResp resp)) = true →
        (watcherTick st w { now := now, detail := .ok resp, list := list }).1.agentLocks
          w.agentId = none) := by
  refine ⟨⟨by decide, by decide⟩, by decide, by decide, ⟨by decide, by decide⟩,
    ⟨by decide, by decide⟩, ?_⟩
  intro st w now resp list h
  exact successTick_lookup_self st w now resp list (by rw [h, Bool.true_or])

/-- Witness for C7's general clause at a concrete input: a first poll returning
`completed` releases the stale lock within that very tick. -/
theorem watcher_release_timing_witness :
    FINAL_STATUSES.contains
      (extractStatus (unwrapResp (.flat { call_status := some "completed" }))) = true
  ∧ (watcherTick lockedState
      { agentId := "A1", callLogId := "c1", startedAt := 0, lastSuccessAt := 0 }
      { now := 1000, detail := .ok (.flat { call_status := some "completed" }),
        list := .ok none }).1.agentLocks "A1" = none :=
  ⟨by decide,
   watcher_release_timing.2.2.2.2.2 lockedState
     { agentId := "A1", callLogId := "c1", startedAt := 0, lastSuccessAt := 0 }
     1000 (.flat { call_status := some "completed" }) (.ok none) (by decide)⟩

/-- Claim C8: when the provider dispatch call succeeds but none of
`call_log_id`, `id`, `call_id` yields a (truthy) identifier, the handler
answers 200, starts no watcher interval, and appends exactly one pending
3000 ms timer whose callback releases the agent's lock with reason
`no_id_auto_release`; firing that timer removes the lock entry, and no status
poll ever exists because no interval was created. -/
theorem dispatch_no_id_auto_release :
    ∀ (st : ServerState) (agent_id : Option String) (data : DispatchRespData) (now : Nat),
      st.agentLocks (jsOrDefault agent_id "default") = none →
      jsOrOpt (jsOrOpt data.call_log_id data.id) data.call_id = none →
      ((dispatchHandler st (some "Bearer tok") agent_id (.ok data) now).2.status = 200)
      ∧ ((dispatchHandler st (some "Bearer tok") agent_id (.ok data) now).1.activeIntervals
          = st.activeIntervals)
      ∧ ((dispatchHandler st (some "Bearer tok") agent_id (.ok data) now).1.pendingTimeouts
          = st.pendingTimeouts ++
              [⟨st.nextTimerId, 3000,
                .release (jsOrDefault agent_id "default") "no_id_auto_release"⟩])
      ∧ ((fireTimeout (dispatchHandler st (some "Bearer tok") agent_id (.ok data) now).1
            ⟨st.nextTimerId, 3000,
             .release (jsOrDefault agent_id "default") "no_id_auto_release"⟩).agentLocks
          (jsOrDefault agent_id "default") = none) := by
  intro st agent_id data now hlock hdata
  have hacq : tryAcquire st.agentLocks (jsOrDefault agent_id "default") now
      = (setLock st.agentLocks (jsOrDefault agent_id "default")
          { currentCallId := none, startedAt := some now }, .granted) := by
    unfold tryAcquire
    rw [hlock]
  have hred : dispatchHandler st (some "Bearer tok") agent_id (.ok data) now
      = (let agentKey := jsOrDefault agent_id "default"
         let locks1 := setLock st.agentLocks agentKey
           { currentCallId := none, startedAt := some now }
         let st1 : ServerState := { st with agentLocks := locks1 }
         let timerId := st1.nextTimerId
         let existingLock := (st1.agentLocks agentKey).getD {}
         ({ st1 with
            agentLocks :=
              setLock st1.agentLocks agentKey { existingLock with timer := some timerId },
            pendingTimeouts :=
              st1.pendingTimeouts ++
                [⟨timerId, 3000, .release agentKey "no_id_auto_release"⟩],
            nextTimerId := st1.nextTimerId + 1 },
          { status := 200 })) := by
    unfold dispatchHandler
    rw [show extractToken (some "Bearer tok") = some "tok" from rfl]
    dsimp only
    rw [hacq]
    dsimp only
    rw [hdata]
  rw [hred]
  refine ⟨rfl, rfl, rfl, ?_⟩
  dsimp only [fireTimeout]
  exact releaseAgentLock_lookup_self _ _ _

/-- Witness for C8: empty state, no `agent_id` in the body, a provider body
with none of the identifier fields; the scheduled timer is ⟨1, 3000 ms,
release "default"⟩ and firing it leaves no lock. -/
theorem dispatch_no_id_auto_release_witness :
    emptyServerState.agentLocks (jsOrDefault none "default") = none
  ∧ jsOrOpt (jsOrOpt ({} : DispatchRespData).call_log_id ({} : DispatchRespData).id)
      ({} : DispatchRespData).call_id = none
  ∧ ((dispatchHandler emptyServerState (some "Bearer tok") none (.ok {}) 7).2.status = 200)
  ∧ ((dispatchHandler emptyServerState (some "Bearer tok") none (.ok {}) 7).1.activeIntervals
      = emptyServerState.activeIntervals)
  ∧ ((dispatchHandler emptyServerState (some "Bearer tok") none (.ok {}) 7).1.pendingTimeouts
      = emptyServerState.pendingTimeouts ++
          [⟨emptyServerState.nextTimerId, 3000,
            .release (jsOrDefault none "default") "no_id_auto_release"⟩])
  ∧ ((fireTimeout (dispatchHandler emptyServerState (some "Bearer tok") none (.ok {}) 7).1
        ⟨emptyServerState.nextTimerId, 3000,
         .release (jsOrDefault none "default") "no_id_auto_release"⟩).agentLocks
      (jsOrDefault none "default") = none) := by
  refine ⟨rfl, rfl, ?_⟩
  exact dispatch_no_id_auto_release emptyServerState none {} 7 rfl rfl

/-- Claim C10: the agent-release endpoint requires no bearer credential. For
every state, every Authorization header (including none) and every body, it
answers 200 with `ok: true` and performs the release, so the released key has
no entry afterwards; a body without `agent_id` releases the key `default`.
Every other inbound endpoint answers 401 when no Authorization header is
present. Finally, a dispatch without `agent_id` acquires its lock under the
same `default` key, as the concrete run shows. -/
theorem agent_release_requires_no_auth :
    (∀ (st : ServerState) (auth body : Option String),
        (agentReleaseHandler st auth body).2.status = 200
      ∧ (agentReleaseHandler st auth body).2.ok = some true
      ∧ (agentReleaseHandler st auth body).1.agentLocks (jsOrDefault body "default") = none)
  ∧ (∀ (st : ServerState) (auth : Option String),
        (agentReleaseHandler st auth none).2.agent_id = some "default"
      ∧ (agentReleaseHandler st auth none).1.agentLocks "default" = none)
  ∧ (∀ o, (bulkCreateHandler none o).status = 401)
  ∧ (∀ o, (callLogsHandler none o).status = 401)
  ∧ (∀ o, (callLogDetailHandler none o).status = 401)
  ∧ (∀ (st : ServerState) (body : Option String) (o : DispatchOutcome) (n : Nat),
        (dispatchHandler st none body o n).2.status = 401)
  ∧ (((dispatchHandler emptyServerState (some "Bearer tok") none (.err none "boom")
        1000).1.agentLocks "default").isSome = true) := by
  refine ⟨?_, ?_, fun o => rfl, fun o => rfl, fun o => rfl, fun st body o n => rfl, by decide⟩
  · intro st auth body
    exact ⟨rfl, rfl, releaseAgentLock_lookup_self _ _ _⟩
  · intro st auth
    exact ⟨rfl, releaseAgentLock_lookup_self _ _ _⟩

/-- Claim C5 (counterexample): two consecutive polls both returning the status
`queued` - a token in neither vocabulary - with no artifacts make the client
loop return ("finished"), while the server-side classifier marks `queued`
Unknown and the server watcher, fed the same two polls, still holds the lock.
So the client decides finished on a polled status the watcher does not
classify Final. -/
theorem client_finishes_where_server_unknown :
    ((Frontend.runClientPolls { lastSuccessAt := 0 } "c1"
        [{ now := 1000, resp := .ok { call_status := some "queued" }, list := .notOk 500 },
         { now := 2000, resp := .ok { call_status := some "queued" }, list := .notOk 500 }]).isSome
      = true)
  ∧ classifyStatus "queued" false = .Unknown
  ∧ (((runTicks lockedState
        { agentId := "A1", callLogId := "c1", startedAt := 0, lastSuccessAt := 0 }
        [okStatusTick 1000 "queued", okStatusTick 2000 "queued"]).1.agentLocks
        "A1").isSome = true) := by
  refine ⟨by decide, by decide, by decide⟩

theorem client_ongoing_token_facts (s : String)
    (h : Frontend.ONGOING_STATUSES.contains s = true) :
    Frontend.FINAL_STATUSES.contains s = false ∧ jsTruthyStr s = true := by
  have hm : s ∈ Frontend.ONGOING_STATUSES := List.elem_iff.mp h
  fin_cases hm <;> exact ⟨by decide, by decide⟩

/-- Claim C5 (amended): the two sides share identical Final and Ongoing
vocabularies; artifacts-present implies finished on the client and release on
the server for any poll; a Final-set status finishes the client poll and
releases the server lock within the same tick; and a successful server poll
whose status is outside the Final set with no artifacts (and a list fetch
returning no array) changes nothing. However the equivalence claimed for all
polled statuses fails: the client - unlike the watcher - also treats repeated
non-ongoing statuses as finished, as the final two conjuncts show on the
`queued` example, where the first such poll continues and the second finishes
while the server watcher never releases on that status. -/
theorem client_server_completion_agreement :
    (∀ s : String, FINAL_STATUSES.contains s = Frontend.FINAL_STATUSES.contains s)
  ∧ (∀ s : String, ONGOING_STATUSES.contains s = Frontend.ONGOING_STATUSES.contains s)
  ∧ (∀ (cs : Frontend.ClientState) (cid : String) (now : Nat) (d : Frontend.CallData)
        (l : Frontend.ClientListOutcome),
        Frontend.hasEndArtifacts d = true →
        (Frontend.clientPollStep cs cid now (.ok d) l).isFinished = true)
  ∧ (∀ (st : ServerState) (w : WatcherState) (now : Nat) (resp : RespData)
        (list : ListOutcome),
        hasEndArtifacts (unwrapResp resp) = true →
        (watcherTick st w { now := now, detail := .ok resp, list := list }).1.agentLocks
          w.agentId = none)
  ∧ (∀ (cs : Frontend.ClientState) (cid : String) (now : Nat) (d : Frontend.CallData)
        (l : Frontend.ClientListOutcome),
        Frontend.FINAL_STATUSES.contains (Frontend.extractStatus d) = true →
        (Frontend.clientPollStep cs cid now (.ok d) l).isFinished = true)
  ∧ (∀ (st : ServerState) (w : WatcherState) (now : Nat) (resp : RespData),
        FINAL_STATUSES.contains (extractStatus (unwrapResp resp)) = false →
        hasEndArtifacts (unwrapResp resp) = false →
        (watcherTick st w { now := now, detail := .ok resp, list := .ok none }).1 = st)
  ∧ ((Frontend.clientPollStep { lastSuccessAt := 0 } "c1" 1000
        (.ok { call_status := some "queued" }) (.notOk 500)).isFinished = false)
  ∧ ((Frontend.clientPollStep { lastSuccessAt := 0, consecutiveNonOngoing := 1 } "c1" 2000
        (.ok { call_status := some "queued" }) (.notOk 500)).isFinished = true) := by
  refine ⟨fun s => contains_ext (by decide) (by decide) s,
    fun s => contains_ext (by decide) (by decide) s, ?_, ?_, ?_, ?_, by decide, by decide⟩
  · intro cs cid now d l hEnd
    unfold Frontend.clientPollStep
    dsimp only
    split
    · rfl
    · simp [hEnd, Frontend.StepResult.isFinished]
  · intro st w now resp list hEnd
    exact successTick_lookup_self st w now resp list (by rw [hEnd, Bool.or_true])
  · intro cs cid now d l hF
    unfold Frontend.clientPollStep
    dsimp only
    split
    · rfl
    · next hnot => exact absurd hF hnot
  · intro st w now resp hF hE
    show (successTick st w now resp (.ok none)).1 = st
    simp only [successTick]
    rw [successCrossCheck_fst_ok_none]
    exact finalizeTick_noop _ _ _ _ hF hE

/-- Witness for C5's hypothesised clauses at a concrete input: a call object
whose only end signal is a nonzero duration finishes the client poll and
releases the server lock in the same tick. -/
theorem client_server_completion_agreement_witness :
    Frontend.hasEndArtifacts ({ duration := some 42 } : Frontend.CallData) = true
  ∧ (Frontend.clientPollStep { lastSuccessAt := 0 } "c1" 1000
      (.ok { duration := some 42 }) (.notOk 500)).isFinished = true
  ∧ (watcherTick lockedState
      { agentId := "A1", callLogId := "c1", startedAt := 0, lastSuccessAt := 0 }
      { now := 1000, detail := .ok (.flat { duration := some 42 }),
        list := .ok none }).1.agentLocks "A1" = none :=
  ⟨by decide,
   client_server_completion_agreement.2.2.1 { lastSuccessAt := 0 } "c1" 1000
     { duration := some 42 } (.notOk 500) (by decide),
   client_server_completion_agreement.2.2.2.1 lockedState
     { agentId := "A1", callLogId := "c1", startedAt := 0, lastSuccessAt := 0 } 1000
     (.flat { duration := some 42 }) (.ok none) (by decide)⟩
